import Mathlib

/-!
Verification of the review-analysis core of
tripadvisor_hotel_reviews_formulator.py: the rating normalizer
(predict_stars), the aspect normalizer (extract_aspects), the text
refiner (paraphrase_review), the star rendering (stars_to_string), the
submit-button validation, and the sequential analysis block.

Strings are modelled as Lean String over their character lists; the
three Hugging Face pipelines are modelled as an explicit record of
fallible capabilities (Except for Python exceptions).
-/

namespace TripFormulator

/-- One element of the sentiment pipeline output list,
e.g. the dict with label equal to the string 2 stars. Only the label
field is read by the code. -/
structure SentimentOutput where
  label : String
deriving DecidableEq

/-- One aggregated entity from the token-classification pipeline.
The code reads it with e.get, so the entity_group key may be absent,
modelled as Option. -/
structure Entity where
  entity_group : Option String
deriving DecidableEq

/-- One candidate from the text2text-generation pipeline; only the
generated_text field is read. -/
structure GenOutput where
  generated_text : String
deriving DecidableEq

/-- Decoding arguments passed to the generation pipeline call. -/
structure GenConfig where
  max_length : Nat
  num_beams : Nat
  do_sample : Bool
deriving DecidableEq

/-- The ASPECT_MAP dict of the source: raw model label to business
topic. Lookup of an unknown key yields none, as dict.get does. -/
def ASPECT_MAP : String → Option String
  | "FOOD" => some "Food & Beverage"
  | "BEVERAGE" => some "Food & Beverage"
  | "STAFF" => some "Staff & Service"
  | "SERVICE" => some "Staff & Service"
  | "LOCATION" => some "Location & Ambience"
  | "VIEW" => some "Location & Ambience"
  | "AMBIENCE" => some "Location & Ambience"
  | _ => none

/-- ASPECT_MAP.get applied to the possibly-missing entity_group value:
dict.get of None is None. -/
def aspectMapGet : Option String → Option String
  | none => none
  | some l => ASPECT_MAP l

/-- ALLOWED_TOPICS = set(ASPECT_MAP.values()), listed without
duplicates. -/
def ALLOWED_TOPICS : List String :=
  ["Food & Beverage", "Staff & Service", "Location & Ambience"]

/-- Block starts of the Unicode general category Nd (decimal digit),
from the Unicode 14.0 character database that ships with the Python
runtime: each block is ten consecutive code points whose decimal value
equals the offset from the block start. -/
def decimalBlockStarts : List Nat :=
  [0x30, 0x660, 0x6F0, 0x7C0, 0x966, 0x9E6, 0xA66, 0xAE6, 0xB66, 0xBE6,
   0xC66, 0xCE6, 0xD66, 0xDE6, 0xE50, 0xED0, 0xF20, 0x1040, 0x1090,
   0x17E0, 0x1810, 0x1946, 0x19D0, 0x1A80, 0x1A90, 0x1B50, 0x1BB0,
   0x1C40, 0x1C50, 0xA620, 0xA8D0, 0xA900, 0xA9D0, 0xA9F0, 0xAA50,
   0xABF0, 0xFF10, 0x104A0, 0x10D30, 0x11066, 0x110F0, 0x11136,
   0x111D0, 0x112F0, 0x11450, 0x114D0, 0x11650, 0x116C0, 0x11730,
   0x118E0, 0x11950, 0x11C50, 0x11D50, 0x11DA0, 0x16A60, 0x16AC0,
   0x16B50, 0x1D7CE, 0x1D7D8, 0x1D7E2, 0x1D7EC, 0x1D7F6, 0x1E140,
   0x1E2F0, 0x1E950, 0x1FBF0]

/-- str.isdecimal, with the digit value: the decimal value of a code
point inside an Nd block, none elsewhere. These are exactly the
characters int() accepts. -/
def pyDecimalVal (c : Char) : Option Nat :=
  match decimalBlockStarts.find?
      (fun lo => decide (lo ≤ c.toNat) && decide (c.toNat ≤ lo + 9)) with
  | some lo => some (c.toNat - lo)
  | none => none

/-- Code point ranges with Numeric_Type Digit but not Decimal, from
the same Unicode database: characters where str.isdigit() is true but
str.isdecimal() is false (superscripts and subscripts, Ethiopic and
New Tai Lue tham digits, circled, parenthesized, full-stop and comma
digit forms, Kharoshthi, Rumi and Brahmi digits). int() rejects all of
them. -/
def digitOnlyRanges : List (Nat × Nat) :=
  [(0xB2, 0xB3), (0xB9, 0xB9), (0x1369, 0x1371), (0x19DA, 0x19DA),
   (0x2070, 0x2070), (0x2074, 0x2079), (0x2080, 0x2089),
   (0x2460, 0x2468), (0x2474, 0x247C), (0x2488, 0x2490),
   (0x24EA, 0x24EA), (0x24F5, 0x24FD), (0x24FF, 0x24FF),
   (0x2776, 0x277E), (0x2780, 0x2788), (0x278A, 0x2792),
   (0x10A40, 0x10A43), (0x10E60, 0x10E68), (0x11052, 0x1105A),
   (0x1F100, 0x1F10A)]

/-- Python ch.isdigit(): true on the decimal digits and on the
digit-but-not-decimal characters. -/
def pyIsDigit (c : Char) : Bool :=
  (pyDecimalVal c).isSome ||
    digitOnlyRanges.any (fun r => decide (r.1 ≤ c.toNat) && decide (c.toNat ≤ r.2))

/-- The characters of the label kept by the generator expression of
predict_stars: those with ch.isdigit() true. -/
def digitChars (label : String) : List Char :=
  label.data.filter pyIsDigit

/-- Python int() applied to a nonempty string of isdigit characters:
it succeeds exactly when every character has a decimal value, yielding
the base-10 numeral of those values, and raises ValueError otherwise
(digit characters such as the superscript two have no decimal
value). -/
def pyInt (ds : List Char) : Except String Nat :=
  match ds.mapM pyDecimalVal with
  | some vs => Except.ok (vs.foldl (fun a d => a * 10 + d) 0)
  | none => Except.error "ValueError: invalid literal for int() with base 10"

/-- Core of predict_stars, applied to the top label returned by the
sentiment pipeline: collect the isdigit characters, parse them with
int() when any were found (which may raise ValueError), default to 3
otherwise, then clamp with max(1, min(5, stars)). -/
def starsOfLabel (label : String) : Except String Int := do
  let stars : Int ←
    if digitChars label = [] then pure 3
    else (pyInt (digitChars label)).map (fun n => (n : Int))
  return max 1 (min 5 stars)

/-- The loop body of extract_aspects for one entity: the mapped topic
when the raw label maps and the mapped value lies in ALLOWED_TOPICS,
else nothing. -/
def entityTopic (e : Entity) : Option String :=
  match aspectMapGet e.entity_group with
  | some t => if t ∈ ALLOWED_TOPICS then some t else none
  | none => none

/-- Pure core of extract_aspects, applied to the entity list returned
by the NER pipeline: collect the mapped topics as a set (deduplicated)
and return them sorted ascending, as Python sorted() does. -/
def topicsOfEntities (ents : List Entity) : List String :=
  (ents.filterMap entityTopic).dedup.mergeSort (fun a b => decide (a ≤ b))

/-- Python str.strip() on a character list: drop whitespace from the
left, then from the right. -/
def pyStrip (l : List Char) : List Char :=
  ((l.dropWhile Char.isWhitespace).reverse.dropWhile Char.isWhitespace).reverse

/-- Python str.strip() on a String. -/
def pyStripStr (s : String) : String :=
  String.mk (pyStrip s.data)

/-- stars_to_string from the source: clamp the integer to 1..5, then
that many filled stars followed by five minus that many empty stars. -/
def stars_to_string (stars : Int) : String :=
  String.mk (List.replicate (max 1 (min 5 stars)).toNat '★' ++
    List.replicate (5 - (max 1 (min 5 stars)).toNat) '☆')

/-- len(s.split()) in Python: split on whitespace and count the
nonempty pieces. -/
def wordCount (s : String) : Nat :=
  ((s.data.splitOnP Char.isWhitespace).filter (fun w => !w.isEmpty)).length

/-- Outcome of the analyze_button validation block. -/
inductive SubmitOutcome where
  | warnTooShort
  | warnEmpty
  | stored
deriving DecidableEq

/-- The validation chain of the analyze_button handler: warn when
word_count < 10, else warn when the stripped text is empty, else store
the review for analysis. -/
def validate (review_text : String) : SubmitOutcome :=
  if wordCount review_text < 10 then .warnTooShort
  else if pyStrip review_text.data = [] then .warnEmpty
  else .stored

/-- The handler's effect on st.session_state last_review: only the
stored outcome overwrites it with the submitted text. -/
def submit (review_text : String) (last_review : Option String) :
    SubmitOutcome × Option String :=
  match validate review_text with
  | .stored => (.stored, some review_text)
  | .warnTooShort => (.warnTooShort, last_review)
  | .warnEmpty => (.warnEmpty, last_review)

/-- The three inference capabilities behind the cached pipelines; each
call may raise, modelled as Except with the Python error message. -/
structure Capabilities where
  rating : String → Except String (List SentimentOutput)
  aspect : String → Except String (List Entity)
  generate : String → GenConfig → Except String (List GenOutput)

/-- Python list indexing out[0]: IndexError on an empty list. -/
def pyGetFirst {α : Type} : List α → Except String α
  | [] => Except.error "IndexError: list index out of range"
  | a :: _ => Except.ok a

/-- predict_stars: run the sentiment pipeline, take element 0, and
normalize its label (which itself may raise ValueError). -/
def predict_stars (c : Capabilities) (review : String) : Except String Int := do
  let outs ← c.rating review
  let out ← pyGetFirst outs
  starsOfLabel out.label

/-- extract_aspects: run the NER pipeline and normalize the entity
list into the sorted topic list. -/
def extract_aspects (c : Capabilities) (review : String) :
    Except String (List String) := do
  let ents ← c.aspect review
  return topicsOfEntities ents

/-- The fixed decoding configuration of paraphrase_review. -/
def paraConfig : GenConfig :=
  { max_length := 256, num_beams := 4, do_sample := false }

/-- paraphrase_review: run the generation pipeline with the fixed
decoding configuration, take element 0 and strip its generated_text. -/
def paraphrase_review (c : Capabilities) (review : String) :
    Except String String := do
  let outs ← c.generate review paraConfig
  let out ← pyGetFirst outs
  return pyStripStr out.generated_text

/-- The combined result rendered by the right column. -/
structure AnalysisResult where
  stars : Int
  star_string : String
  topics : List String
  cleaned_review : String
deriving DecidableEq

/-- The analysis block of right_col: the three stages run sequentially
in source order; a raised exception aborts the whole block. -/
def analyze (c : Capabilities) (review : String) :
    Except String AnalysisResult := do
  let stars ← predict_stars c review
  let star_string := stars_to_string stars
  let topics ← extract_aspects c review
  let cleaned_review ← paraphrase_review c review
  return { stars := stars, star_string := star_string,
           topics := topics, cleaned_review := cleaned_review }

/-- Concrete capabilities whose generation stage returns the spec's
example candidate. -/
def niceCaps : Capabilities :=
  { rating := fun _ => Except.ok [⟨"4 stars"⟩],
    aspect := fun _ => Except.ok [],
    generate := fun _ _ => Except.ok [⟨" Nice stay. "⟩] }

/-- Concrete capabilities whose generation stage raises while the two
earlier stages succeed. -/
def failingCaps : Capabilities :=
  { rating := fun _ => Except.ok [⟨"4 stars"⟩],
    aspect := fun _ => Except.ok [⟨some "STAFF"⟩, ⟨some "LOCATION"⟩, ⟨some "FOOD"⟩],
    generate := fun _ _ => Except.error "InferenceFailure" }

theorem foldl_base10_eq (vs : List Nat) (a : Nat) :
    vs.foldl (fun a d => a * 10 + d) a =
      a * 10 ^ vs.length + Nat.ofDigits 10 vs.reverse := by
  induction vs generalizing a with
  | nil => simp [Nat.ofDigits]
  | cons v vs ih =>
    simp only [List.foldl_cons, ih, List.reverse_cons, List.length_cons,
      Nat.ofDigits_append, Nat.ofDigits_singleton, List.length_reverse]
    ring

theorem pyInt_eq_ofDigits (ds : List Char) (vs : List Nat)
    (h : ds.mapM pyDecimalVal = some vs) :
    pyInt ds = Except.ok (Nat.ofDigits 10 vs.reverse) := by
  unfold pyInt
  rw [h]
  show Except.ok (vs.foldl (fun a d => a * 10 + d) 0) =
    Except.ok (Nat.ofDigits 10 vs.reverse)
  rw [foldl_base10_eq]
  simp

/-- C1 (amended): predict_stars collects the label's characters with
ch.isdigit() true (Unicode digit characters, not only the decimal
ones); when none are found the rating defaults to 3; when every
collected character is a decimal digit, int() parses the concatenation
as the base-10 numeral of their digit values and the result is clamped
to [1,5]; but when a collected character is a digit without a decimal
value, int() raises ValueError and no rating is produced; the labels
1 star, 5 stars, 7 stars, positive give 1, 5, 5, 3. -/
theorem predict_stars_digit_concat (label : String) :
    (digitChars label = [] → starsOfLabel label = Except.ok 3) ∧
    (∀ vs, digitChars label ≠ [] →
      (digitChars label).mapM pyDecimalVal = some vs →
      starsOfLabel label =
        Except.ok (max 1 (min 5 ((Nat.ofDigits 10 vs.reverse : Nat) : Int)))) ∧
    ((digitChars label).mapM pyDecimalVal = none →
      starsOfLabel label =
        Except.error "ValueError: invalid literal for int() with base 10") ∧
    starsOfLabel "1 star" = Except.ok 1 ∧
    starsOfLabel "5 stars" = Except.ok 5 ∧
    starsOfLabel "7 stars" = Except.ok 5 ∧
    starsOfLabel "positive" = Except.ok 3 := by
  refine ⟨?_, ?_, ?_, rfl, rfl, rfl, rfl⟩
  · intro h
    unfold starsOfLabel
    rw [if_pos h]
    rfl
  · intro vs hne h
    unfold starsOfLabel
    rw [if_neg hne, pyInt_eq_ofDigits _ _ h]
    rfl
  · intro h
    have hne : digitChars label ≠ [] := by
      intro hnil
      rw [hnil] at h
      exact absurd h (by decide)
    unfold starsOfLabel
    rw [if_neg hne]
    unfold pyInt
    rw [h]
    rfl

theorem predict_stars_digit_concat_witness :
    starsOfLabel "2 stars" = Except.ok 2 :=
  ((predict_stars_digit_concat "2 stars").2.1 [2] (by decide) (by decide)).trans
    (congrArg Except.ok (by decide))

/-- C1 counterexample: on the label made of the single superscript
two, the claim as stated requires the default rating 3 (the label has
no decimal digit characters), but the program raises ValueError:
the superscript passes the isdigit filter and is then rejected by
int(). -/
theorem predict_stars_claim_counterexample :
    starsOfLabel "²" =
      Except.error "ValueError: invalid literal for int() with base 10" ∧
    starsOfLabel "²" ≠ Except.ok 3 :=
  ⟨rfl, fun h => Except.noConfusion h⟩

/-- C4: the never-fails guarantee is not true of the code: the
superscript two is an isdigit character without a decimal value, so on
the labels below predict_stars raises ValueError from int() instead of
falling back to 3 as the specification guarantees. -/
theorem predict_stars_fails_on_superscript :
    pyIsDigit '²' = true ∧
    pyDecimalVal '²' = none ∧
    starsOfLabel "²" =
      Except.error "ValueError: invalid literal for int() with base 10" ∧
    starsOfLabel "² stars" =
      Except.error "ValueError: invalid literal for int() with base 10" :=
  ⟨by decide, by decide, rfl, rfl⟩

/-- C9: stars_to_string clamps its integer argument to [1,5] and
renders that many filled stars followed by five minus that many empty
stars, so the rendered string always has exactly 5 characters and
contains at least one filled star. -/
theorem stars_to_string_spec (s : Int) :
    stars_to_string s =
      String.mk (List.replicate (max 1 (min 5 s)).toNat '★' ++
        List.replicate (5 - (max 1 (min 5 s)).toNat) '☆') ∧
    (stars_to_string s).length = 5 ∧
    '★' ∈ (stars_to_string s).data := by
  have h1 : 1 ≤ (max 1 (min 5 s)).toNat ∧ (max 1 (min 5 s)).toNat ≤ 5 := by
    omega
  refine ⟨rfl, ?_, ?_⟩
  · show (List.replicate (max 1 (min 5 s)).toNat '★' ++
      List.replicate (5 - (max 1 (min 5 s)).toNat) '☆').length = 5
    rw [List.length_append, List.length_replicate, List.length_replicate]
    omega
  · show '★' ∈ List.replicate (max 1 (min 5 s)).toNat '★' ++
      List.replicate (5 - (max 1 (min 5 s)).toNat) '☆'
    rw [List.mem_append]
    left
    rw [List.mem_replicate]
    exact ⟨by omega, rfl⟩

theorem filter_splitOnP_all_ws (l : List Char)
    (h : ∀ c ∈ l, Char.isWhitespace c) :
    (l.splitOnP Char.isWhitespace).filter (fun w => !w.isEmpty) = [] := by
  induction l with
  | nil => simp [List.splitOnP_nil]
  | cons c l ih =>
    have hc : Char.isWhitespace c = true := h c (List.mem_cons_self c l)
    rw [List.splitOnP_cons, if_pos hc, List.filter_cons]
    simp only [List.isEmpty_nil, Bool.not_true, if_false]
    exact ih fun x hx => h x (List.mem_cons_of_mem _ hx)

theorem all_ws_of_pyStrip_eq_nil (l : List Char) (h : pyStrip l = []) :
    ∀ c ∈ l, Char.isWhitespace c := by
  unfold pyStrip at h
  rw [List.reverse_eq_nil_iff, List.dropWhile_eq_nil_iff] at h
  intro c hc
  have hsplit := List.takeWhile_append_dropWhile Char.isWhitespace l
  rw [← hsplit] at hc
  rcases List.mem_append.mp hc with h1 | h2
  · exact List.mem_takeWhile_imp h1
  · exact h _ (List.mem_reverse.mpr h2)

theorem wordCount_eq_zero_of_strip_nil (s : String)
    (h : pyStrip s.data = []) : wordCount s = 0 := by
  unfold wordCount
  rw [filter_splitOnP_all_ws s.data (all_ws_of_pyStrip_eq_nil s.data h)]
  rfl

/-- C6: when the submitted review has fewer than 10 whitespace
tokens, the handler issues the too-short warning and leaves the stored
review unchanged, so the short text is never handed to the pipeline. -/
theorem short_review_blocked (t : String) (st : Option String)
    (h : wordCount t < 10) :
    submit t st = (SubmitOutcome.warnTooShort, st) := by
  unfold submit validate
  rw [if_pos h]

theorem short_review_blocked_witness :
    submit "too short" none = (SubmitOutcome.warnTooShort, none) :=
  short_review_blocked "too short" none (by decide)

/-- C10: the empty-review warning branch of the submit validation is
unreachable: whenever the stripped text is empty the whitespace token
count is below 10, so the first branch already fires. -/
theorem empty_warning_unreachable (t : String) :
    validate t ≠ SubmitOutcome.warnEmpty ∧
    (pyStrip t.data = [] → wordCount t < 10) := by
  constructor
  · intro hcontra
    unfold validate at hcontra
    by_cases hw : wordCount t < 10
    · rw [if_pos hw] at hcontra
      exact SubmitOutcome.noConfusion hcontra
    · rw [if_neg hw] at hcontra
      by_cases hs : pyStrip t.data = []
      · have := wordCount_eq_zero_of_strip_nil t hs
        omega
      · rw [if_neg hs] at hcontra
        exact SubmitOutcome.noConfusion hcontra
  · intro hs
    have := wordCount_eq_zero_of_strip_nil t hs
    omega

theorem empty_warning_unreachable_witness : wordCount "" < 10 :=
  (empty_warning_unreachable "").2 rfl

theorem aspectMap_mem_allowed (l t : String) (h : ASPECT_MAP l = some t) :
    t ∈ ALLOWED_TOPICS := by
  unfold ASPECT_MAP at h
  split at h <;> simp_all [ALLOWED_TOPICS]

theorem entityTopic_eq_some (e : Entity) (t : String) :
    entityTopic e = some t ↔ aspectMapGet e.entity_group = some t := by
  unfold entityTopic
  cases hg : aspectMapGet e.entity_group with
  | none => simp
  | some u =>
    have hu : u ∈ ALLOWED_TOPICS := by
      cases he : e.entity_group with
      | none => rw [he] at hg; exact Option.noConfusion hg
      | some l => rw [he] at hg; exact aspectMap_mem_allowed l u hg
    simp [hu]

theorem string_le_trans (a b c : String) :
    decide (a ≤ b) = true → decide (b ≤ c) = true → decide (a ≤ c) = true := by
  intro hab hbc
  exact decide_eq_true (le_trans (of_decide_eq_true hab) (of_decide_eq_true hbc))

theorem string_le_total (a b : String) :
    (decide (a ≤ b) || decide (b ≤ a)) = true := by
  rcases le_total a b with h | h <;> simp [h]

/-- C2: the aspect normalizer maps every entity_group through the
fixed table, silently drops entities without a mapping, and returns
the deduplicated mapped topics in ascending lexical order; every
returned topic belongs to the closed topic set, and an empty entity
list yields the empty topic list. -/
theorem extract_aspects_spec (ents : List Entity) :
    List.Sorted (· ≤ ·) (topicsOfEntities ents) ∧
    (topicsOfEntities ents).Nodup ∧
    (∀ t, t ∈ topicsOfEntities ents ↔
      ∃ e ∈ ents, aspectMapGet e.entity_group = some t) ∧
    (∀ t ∈ topicsOfEntities ents, t ∈ ALLOWED_TOPICS) ∧
    topicsOfEntities [] = [] ∧
    aspectMapGet (some "FOOD") = some "Food & Beverage" ∧
    aspectMapGet (some "BEVERAGE") = some "Food & Beverage" ∧
    aspectMapGet (some "STAFF") = some "Staff & Service" ∧
    aspectMapGet (some "SERVICE") = some "Staff & Service" ∧
    aspectMapGet (some "LOCATION") = some "Location & Ambience" ∧
    aspectMapGet (some "VIEW") = some "Location & Ambience" ∧
    aspectMapGet (some "AMBIENCE") = some "Location & Ambience" := by
  have hmem : ∀ t, t ∈ topicsOfEntities ents ↔
      ∃ e ∈ ents, aspectMapGet e.entity_group = some t := by
    intro t
    unfold topicsOfEntities
    rw [List.mem_mergeSort, List.mem_dedup, List.mem_filterMap]
    simp only [entityTopic_eq_some]
  refine ⟨?_, ?_, hmem, ?_,
    by simp [topicsOfEntities, List.mergeSort_nil],
    by decide, by decide, by decide, by decide,
    by decide, by decide, by decide⟩
  · have hs := List.sorted_mergeSort string_le_trans string_le_total
      ((ents.filterMap entityTopic).dedup)
    exact hs.imp fun h => of_decide_eq_true h
  · exact (List.mergeSort_perm _ _).nodup_iff.mpr (List.nodup_dedup _)
  · intro t ht
    rcases (hmem t).mp ht with ⟨e, _, he⟩
    cases hg : e.entity_group with
    | none => rw [hg] at he; exact Option.noConfusion he
    | some l => rw [hg] at he; exact aspectMap_mem_allowed l t he

theorem extract_aspects_spec_witness :
    "Staff & Service" ∈
      topicsOfEntities [⟨some "STAFF"⟩, ⟨some "FOOD"⟩, ⟨some "COLOR"⟩] :=
  ((extract_aspects_spec [⟨some "STAFF"⟩, ⟨some "FOOD"⟩, ⟨some "COLOR"⟩]).2.2.1
    "Staff & Service").mpr ⟨⟨some "STAFF"⟩, by decide, by decide⟩

/-- C7: the aspect normalizer is deterministic in its entity input:
equal entity lists give equal topic lists, contents and order. -/
theorem extract_aspects_deterministic (ents1 ents2 : List Entity)
    (h : ents1 = ents2) :
    topicsOfEntities ents1 = topicsOfEntities ents2 := by
  rw [h]

theorem extract_aspects_deterministic_witness :
    topicsOfEntities [⟨some "STAFF"⟩] = topicsOfEntities [⟨some "STAFF"⟩] :=
  extract_aspects_deterministic [⟨some "STAFF"⟩] [⟨some "STAFF"⟩] rfl

/-- C3: paraphrase_review consults the generation capability only at
the fixed decoding configuration max_length 256, num_beams 4,
do_sample false; it returns the first candidate's generated_text with
surrounding whitespace stripped, and nothing else: two capability
records agreeing at the fixed configuration give equal outputs, and
the stripped spec example evaluates as stated. -/
theorem paraphrase_review_spec :
    (∀ (c c2 : Capabilities) (review : String),
        c.generate review paraConfig = c2.generate review paraConfig →
        paraphrase_review c review = paraphrase_review c2 review) ∧
    (∀ (c : Capabilities) (review : String) (outs : List GenOutput),
        c.generate review paraConfig = Except.ok outs →
        paraphrase_review c review =
          (pyGetFirst outs).map (fun o => pyStripStr o.generated_text)) ∧
    paraConfig.max_length = 256 ∧ paraConfig.num_beams = 4 ∧
    paraConfig.do_sample = false ∧
    pyStripStr " Nice stay. " = "Nice stay." := by
  refine ⟨?_, ?_, rfl, rfl, rfl, by decide⟩
  · intro c c2 review h
    unfold paraphrase_review
    rw [h]
  · intro c review outs h
    unfold paraphrase_review
    rw [h]
    cases outs <;> rfl

theorem paraphrase_review_spec_witness :
    paraphrase_review niceCaps "The hotel was great" =
      Except.ok "Nice stay." :=
  (paraphrase_review_spec.2.1 niceCaps "The hotel was great"
    [⟨" Nice stay. "⟩] rfl).trans rfl

/-- C5: the analysis block yields a result only when all three stages
succeed, and when the generation stage raises after the rating and
topic stages have already succeeded, the whole analysis yields that
error and no partial result. -/
theorem analyze_all_or_nothing (c : Capabilities) (review : String) :
    (∀ r, analyze c review = Except.ok r →
      ∃ s t p, predict_stars c review = Except.ok s ∧
        extract_aspects c review = Except.ok t ∧
        paraphrase_review c review = Except.ok p ∧
        r = ⟨s, stars_to_string s, t, p⟩) ∧
    (∀ s t e, predict_stars c review = Except.ok s →
      extract_aspects c review = Except.ok t →
      paraphrase_review c review = Except.error e →
      analyze c review = Except.error e) := by
  constructor
  · intro r hr
    unfold analyze at hr
    cases h1 : predict_stars c review with
    | error e => rw [h1] at hr; exact Except.noConfusion hr
    | ok s =>
      rw [h1] at hr
      cases h2 : extract_aspects c review with
      | error e => rw [h2] at hr; exact Except.noConfusion hr
      | ok t =>
        rw [h2] at hr
        cases h3 : paraphrase_review c review with
        | error e => rw [h3] at hr; exact Except.noConfusion hr
        | ok p =>
          rw [h3] at hr
          exact ⟨s, t, p, rfl, rfl, rfl, (Except.ok.inj hr).symm⟩
  · intro s t e h1 h2 h3
    unfold analyze
    rw [h1, h2, h3]
    rfl

theorem analyze_all_or_nothing_witness :
    analyze failingCaps "r" = Except.error "InferenceFailure" :=
  (analyze_all_or_nothing failingCaps "r").2 4
    (topicsOfEntities [⟨some "STAFF"⟩, ⟨some "LOCATION"⟩, ⟨some "FOOD"⟩])
    "InferenceFailure" rfl rfl rfl

end TripFormulator
